import Mathlib

/-!
Shallow embedding of the TaskMaster task-management backend.

Two variants are embedded:
* the embedded (SQLite-backed) variant, `src/api/main.py`;
* the remote (Supabase-backed) variant, `src/api/main-supabase-erro.py`.

Timestamps are modelled as a logical clock (`Nat`): every handler that
executes SQL containing `CURRENT_TIMESTAMP` receives the current clock value
`now` as an explicit argument (within one SQL statement `CURRENT_TIMESTAMP`
is a single fixed value, which is why a statement gets a single `now`).

The SQLite `tasks` table is modelled as a list of rows together with the
`AUTOINCREMENT` counter (`nextId`): SQLite's `AUTOINCREMENT` hands out
`nextId` on insert, increments it, and never decreases it, so deleted ids
are never reused.

FastAPI's `HTTPException` is modelled by the `HTTPError` structure and a
handler body that can raise is modelled in the `Except HTTPError` monad.
Every route of `main.py` wraps its whole body in
`try: ... except Exception as e: raise HTTPException(500, f"Database error: ...")`;
since `fastapi.HTTPException` is itself a subclass of `Exception`, this
catch-all also intercepts the `HTTPException(404)` raised inside the body.
That wrapping is modelled faithfully by `wrapDBError`.
-/

namespace TaskMaster

/-- A row of the `tasks` table of the embedded (SQLite) variant, as declared
by `init_db` in `src/api/main.py`. -/
structure Task where
  id : Nat
  title : String
  description : Option String
  priority : Int
  user_id : String
  is_completed : Bool
  created_at : Nat
  updated_at : Nat
deriving DecidableEq, Repr

/-- The embedded store: the rows of the `tasks` table plus the SQLite
`AUTOINCREMENT` counter (the id that the next `INSERT` will receive). -/
structure Store where
  rows : List Task
  nextId : Nat
deriving DecidableEq, Repr

/-- The store right after `init_db` created the table in a fresh database
file: no rows, `AUTOINCREMENT` counter at 1. -/
def emptyStore : Store := { rows := [], nextId := 1 }

/-- Model of `fastapi.HTTPException(status_code, detail)`. -/
structure HTTPError where
  status_code : Nat
  detail : String
deriving DecidableEq, Repr

/-- Starlette renders `str(HTTPException(s, d))` as `f"{s}: {d}"`. -/
def strOfHTTPError (e : HTTPError) : String :=
  toString e.status_code ++ ": " ++ e.detail

/-- Model of the per-route `try: ... except Exception as e:
raise HTTPException(status_code=500, detail=f"Database error: {str(e)}")`
pattern of `src/api/main.py`. `fastapi.HTTPException` derives from
`Exception`, so an inner `HTTPException` (for example the 404 raised for a
missing task) is also caught and re-raised as a 500. -/
def wrapDBError {α : Type} (r : Except HTTPError α) : Except HTTPError α :=
  match r with
  | .ok a => .ok a
  | .error e => .error ⟨500, "Database error: " ++ strOfHTTPError e⟩

/-! ### Schema of the embedded variant (`init_db`, `src/api/main.py` lines 45-88) -/

/-- A column `DEFAULT` clause of the `CREATE TABLE` statement. -/
inductive ColDefault where
  | noDefault
  | intVal (n : Int)
  | boolVal (b : Bool)
  | currentTimestamp
deriving DecidableEq, Repr

/-- The declarative content of the `CREATE TABLE IF NOT EXISTS tasks (...)`
statement of `init_db`. -/
structure TableSchema where
  idIsAutoincrementPrimaryKey : Bool
  titleNotNull : Bool
  priorityDefault : ColDefault
  userIdNotNull : Bool
  isCompletedDefault : ColDefault
  createdAtDefault : ColDefault
  updatedAtDefault : ColDefault
deriving DecidableEq, Repr

/-- The schema declared by `init_db`:
`id INTEGER PRIMARY KEY AUTOINCREMENT, title TEXT NOT NULL, description TEXT,
priority INTEGER DEFAULT 3, user_id TEXT NOT NULL,
is_completed BOOLEAN DEFAULT FALSE,
created_at TIMESTAMP DEFAULT CURRENT_TIMESTAMP,
updated_at TIMESTAMP DEFAULT CURRENT_TIMESTAMP`. -/
def tasksSchema : TableSchema :=
  { idIsAutoincrementPrimaryKey := true
    titleNotNull := true
    priorityDefault := .intVal 3
    userIdNotNull := true
    isCompletedDefault := .boolVal false
    createdAtDefault := .currentTimestamp
    updatedAtDefault := .currentTimestamp }

/-- Model of `init_db`: the state of the database file is `none` when the
`tasks` table does not exist yet, `some (schema, store)` when it does.
`CREATE TABLE IF NOT EXISTS` creates the empty table on a fresh file and is
a no-op when the table already exists. -/
def init_db (db : Option (TableSchema × Store)) : Option (TableSchema × Store) :=
  match db with
  | none => some (tasksSchema, emptyStore)
  | some t => some t

/-! ### Pydantic request models (`TaskBase`, `TaskCreate`) -/

/-- The `validate_priority` validator of `TaskBase`
(`src/api/main.py` lines 97-101, identical in `main-supabase-erro.py`):
`if v not in range(1, 6): raise ValueError("Priority must be between 1 and 5")`.
`range(1, 6)` contains the integers `1 ≤ v < 6`. -/
def validate_priority (v : Int) : Except String Int :=
  if 1 ≤ v ∧ v < 6 then .ok v else .error "Priority must be between 1 and 5"

/-- A raw JSON request body as it reaches pydantic: every field optional, and
possibly carrying `user_id` / `is_completed` keys that the target model does
not declare (pydantic v1 silently ignores undeclared keys). -/
structure RawTaskPayload where
  title : Option String
  description : Option String
  priority : Option Int
  user_id : Option String
  is_completed : Option Bool
deriving DecidableEq, Repr

/-- The parsed `TaskBase` pydantic model: `title: str`,
`description: Optional[str] = None`, `priority: int = 3`. -/
structure TaskBase where
  title : String
  description : Option String
  priority : Int
deriving DecidableEq, Repr

/-- Parsing a raw body into `TaskBase`: `title` is required, `description`
defaults to `None`, `priority` defaults to 3 and passes through
`validate_priority`; undeclared keys (`user_id`, `is_completed`) are
ignored. -/
def TaskBase.parse (raw : RawTaskPayload) : Except String TaskBase :=
  match raw.title with
  | none => .error "field required: title"
  | some title =>
    match validate_priority (raw.priority.getD 3) with
    | .error msg => .error msg
    | .ok p => .ok { title := title, description := raw.description, priority := p }

/-- The parsed `TaskCreate` pydantic model: `TaskBase` plus `user_id: str`. -/
structure TaskCreate where
  title : String
  description : Option String
  priority : Int
  user_id : String
deriving DecidableEq, Repr

/-- Parsing a raw body into `TaskCreate`: the `TaskBase` fields plus the
required `user_id`; the undeclared `is_completed` key is ignored. -/
def TaskCreate.parse (raw : RawTaskPayload) : Except String TaskCreate :=
  match TaskBase.parse raw with
  | .error msg => .error msg
  | .ok base =>
    match raw.user_id with
    | none => .error "field required: user_id"
    | some uid =>
      .ok { title := base.title, description := base.description
            priority := base.priority, user_id := uid }

/-! ### Embedded-variant route handlers (`src/api/main.py`) -/

/-- `SELECT * FROM tasks WHERE id = ?` followed by `fetchone()`. -/
def fetchTask (st : Store) (task_id : Nat) : Option Task :=
  st.rows.find? (fun t => t.id == task_id)

/-- Body of `GET /tasks/{task_id}` (`get_task`, lines 203-224) before the
catch-all: fetch the row, raise `HTTPException(404, "Task not found")` when
`fetchone()` returned nothing. -/
def get_task_body (st : Store) (task_id : Nat) : Except HTTPError Task :=
  match fetchTask st task_id with
  | none => .error ⟨404, "Task not found"⟩
  | some t => .ok t

/-- The full `get_task` route, catch-all included. -/
def get_task (st : Store) (task_id : Nat) : Except HTTPError Task :=
  wrapDBError (get_task_body st task_id)

/-- The `INSERT INTO tasks (title, description, priority, user_id) VALUES
(?, ?, ?, ?)` of `create_task`: `id` comes from the `AUTOINCREMENT` counter
and the omitted columns take their schema defaults (`is_completed FALSE`,
`created_at`/`updated_at` `CURRENT_TIMESTAMP`, the single value `now`). -/
def insertTask (st : Store) (now : Nat) (task : TaskCreate) : Task × Store :=
  let t : Task :=
    { id := st.nextId
      title := task.title
      description := task.description
      priority := task.priority
      user_id := task.user_id
      is_completed := false
      created_at := now
      updated_at := now }
  (t, { rows := st.rows ++ [t], nextId := st.nextId + 1 })

/-- Body of `POST /tasks/` (`create_task`, lines 125-158) before the
catch-all: insert, read `cursor.lastrowid`, re-select the created row, raise
`HTTPException(400, "Error creating task")` if the re-select finds nothing. -/
def create_task_body (st : Store) (now : Nat) (task : TaskCreate) :
    Except HTTPError Task × Store :=
  let ins := insertTask st now task
  let task_id := st.nextId
  let res : Except HTTPError Task :=
    match fetchTask ins.2 task_id with
    | none => .error ⟨400, "Error creating task"⟩
    | some td => .ok td
  (res, ins.2)

/-- The full `create_task` route, catch-all included. -/
def create_task (st : Store) (now : Nat) (task : TaskCreate) :
    Except HTTPError Task × Store :=
  let r := create_task_body st now task
  (wrapDBError r.1, r.2)

/-- `POST /tasks/` as seen from the wire: FastAPI first parses the body into
`TaskCreate` (a pydantic failure is a 422 response produced before the
handler runs, so the store is untouched), then runs `create_task`. -/
def handle_create (st : Store) (now : Nat) (raw : RawTaskPayload) :
    Except HTTPError Task × Store :=
  match TaskCreate.parse raw with
  | .error msg => (.error ⟨422, msg⟩, st)
  | .ok tc => create_task st now tc

/-- The `WHERE` clause built by `list_tasks` (lines 180-189): a condition
`user_id = ?` is added only under Python truthiness `if user_id:` (so it is
skipped both for `None` and for the empty string), and `is_completed = ?`
is added under `if completed is not None:`. -/
def rowMatches (user_id : Option String) (completed : Option Bool) (t : Task) : Bool :=
  (match user_id with
   | some u => if u.isEmpty then true else t.user_id == u
   | none => true)
  &&
  (match completed with
   | some c => t.is_completed == c
   | none => true)

/-- The comparison of `ORDER BY created_at DESC`. -/
def byCreatedDesc (a b : Task) : Bool :=
  b.created_at ≤ a.created_at

/-- `GET /tasks/` (`list_tasks`, lines 161-200): filter, `ORDER BY
created_at DESC`, then `LIMIT ? OFFSET ?` (the offset is applied to the
ordered result first, then at most `limit` rows are returned). The happy
path raises nothing, so the catch-all does not act. -/
def list_tasks (st : Store) (skip limit : Nat)
    (user_id : Option String) (completed : Option Bool) : List Task :=
  ((((st.rows.filter (rowMatches user_id completed)).mergeSort byCreatedDesc).drop
    skip).take limit)

/-- The column assignments of the `UPDATE tasks SET title = ?,
description = ?, priority = ?, updated_at = CURRENT_TIMESTAMP` statement of
`update_task`, applied to one row. -/
def updRow (task : TaskBase) (now : Nat) (u : Task) : Task :=
  { u with title := task.title, description := task.description,
           priority := task.priority, updated_at := now }

/-- The row rewrite of the `UPDATE ... WHERE id = ?` statement of
`update_task`: only rows matching the `WHERE` clause are assigned. -/
def applyUpdate (task_id : Nat) (task : TaskBase) (now : Nat) (t : Task) : Task :=
  if t.id == task_id then updRow task now t else t

/-- Body of `PUT /tasks/{task_id}` (`update_task`, lines 227-260) before the
catch-all: run the `UPDATE`, commit, raise `HTTPException(404)` when
`cursor.rowcount == 0`, otherwise re-select and return the updated row
(`cursor.rowcount` is the number of rows the `UPDATE` matched). -/
def update_task_body (st : Store) (now : Nat) (task_id : Nat) (task : TaskBase) :
    Except HTTPError Task × Store :=
  let st2 : Store := { st with rows := st.rows.map (applyUpdate task_id task now) }
  let rowcount := (st.rows.filter (fun t => t.id == task_id)).length
  let res : Except HTTPError Task :=
    if rowcount == 0 then .error ⟨404, "Task not found"⟩
    else
      match fetchTask st2 task_id with
      | none => .error ⟨500, "fetched row missing"⟩
      | some td => .ok td
  (res, st2)

/-- The full `update_task` route, catch-all included. -/
def update_task (st : Store) (now : Nat) (task_id : Nat) (task : TaskBase) :
    Except HTTPError Task × Store :=
  let r := update_task_body st now task_id task
  (wrapDBError r.1, r.2)

/-- `PUT /tasks/{task_id}` as seen from the wire: the body is parsed into
`TaskBase` (undeclared `user_id` / `is_completed` keys are dropped;
a pydantic failure is a 422 produced before the handler runs). -/
def handle_update (st : Store) (now : Nat) (task_id : Nat) (raw : RawTaskPayload) :
    Except HTTPError Task × Store :=
  match TaskBase.parse raw with
  | .error msg => (.error ⟨422, msg⟩, st)
  | .ok tb => update_task st now task_id tb

/-- The column assignments of the `UPDATE tasks SET is_completed = TRUE,
updated_at = CURRENT_TIMESTAMP` statement of `complete_task`, applied to one
row. -/
def completeRow (now : Nat) (u : Task) : Task :=
  { u with is_completed := true, updated_at := now }

/-- The row rewrite of the `UPDATE ... WHERE id = ?` statement of
`complete_task`: only rows matching the `WHERE` clause are assigned. -/
def applyComplete (task_id : Nat) (now : Nat) (t : Task) : Task :=
  if t.id == task_id then completeRow now t else t

/-- Body of `PUT /tasks/{task_id}/complete` (`complete_task`, lines 263-284)
before the catch-all. -/
def complete_task_body (st : Store) (now : Nat) (task_id : Nat) :
    Except HTTPError String × Store :=
  let st2 : Store := { st with rows := st.rows.map (applyComplete task_id now) }
  let rowcount := (st.rows.filter (fun t => t.id == task_id)).length
  let res : Except HTTPError String :=
    if rowcount == 0 then .error ⟨404, "Task not found"⟩
    else .ok "Task completed successfully"
  (res, st2)

/-- The full `complete_task` route, catch-all included. -/
def complete_task (st : Store) (now : Nat) (task_id : Nat) :
    Except HTTPError String × Store :=
  let r := complete_task_body st now task_id
  (wrapDBError r.1, r.2)

/-- Body of `DELETE /tasks/{task_id}` (`delete_task`, lines 287-302) before
the catch-all: `DELETE FROM tasks WHERE id = ?`, raise `HTTPException(404)`
when `cursor.rowcount == 0`. The `AUTOINCREMENT` counter is not touched by
a `DELETE`. -/
def delete_task_body (st : Store) (task_id : Nat) :
    Except HTTPError String × Store :=
  let st2 : Store := { st with rows := st.rows.filter (fun t => !(t.id == task_id)) }
  let rowcount := (st.rows.filter (fun t => t.id == task_id)).length
  let res : Except HTTPError String :=
    if rowcount == 0 then .error ⟨404, "Task not found"⟩
    else .ok "Task deleted successfully"
  (res, st2)

/-- The full `delete_task` route, catch-all included. -/
def delete_task (st : Store) (task_id : Nat) :
    Except HTTPError String × Store :=
  let r := delete_task_body st task_id
  (wrapDBError r.1, r.2)

/-! ### Remote-variant definitions (`src/api/main-supabase-erro.py`) -/

/-- A row of the hosted `tasks` table of the remote variant: same data as
`Task` but with the backend-assigned opaque string id of `TaskResponse`
(`id: str`). -/
structure RTask where
  id : String
  title : String
  description : Option String
  priority : Int
  user_id : String
  is_completed : Bool
  created_at : Nat
  updated_at : Nat
deriving DecidableEq, Repr

/-- The connected Supabase client: the remote `tasks` table it can reach,
plus the opaque id the hosted backend will assign to the next insert. -/
structure SupabaseClient where
  table : List RTask
  freshId : String
deriving DecidableEq, Repr

/-- Python truthiness of an environment lookup `os.getenv(...)`: falsy when
the variable is unset (`None`) or set to the empty string. -/
def envTruthy : Option String → Bool
  | none => false
  | some s => !s.isEmpty

/-- Model of the module bootstrap of `main-supabase-erro.py` (lines 30-41):
`if not supabase_url or not supabase_key: raise ValueError(...)` — an
uncaught exception at import time, i.e. a fatal startup failure, returned
here as `.error` — then `try: supabase = create_client(...) except: supabase
= None` — a failed connection leaves the process alive with `supabase =
None`, returned here as `.ok none`. The behaviour of `create_client` is
abstracted as the `connect` argument. -/
def module_bootstrap (supabase_url supabase_key : Option String)
    (connect : String → String → Except String SupabaseClient) :
    Except String (Option SupabaseClient) :=
  if !(envTruthy supabase_url) || !(envTruthy supabase_key) then
    .error "Supabase URL and Supabase API key must be set"
  else
    match connect (supabase_url.getD "") (supabase_key.getD "") with
    | .ok c => .ok (some c)
    | .error _ => .ok none

/-- Modelled from the spec: the hosted store's reaction to
`supabase.table("tasks").insert(task_data).execute()`. The remote table's
column defaults are not part of this repository (they live in the hosted
database's schema); per the spec the backend assigns the opaque `id` and
sets `is_completed = false` and `created_at = updated_at` to the insertion
moment, returning the materialized row in `response.data[0]`. -/
def supabaseInsert (c : SupabaseClient) (now : Nat) (task : TaskCreate) :
    RTask × SupabaseClient :=
  let t : RTask :=
    { id := c.freshId
      title := task.title
      description := task.description
      priority := task.priority
      user_id := task.user_id
      is_completed := false
      created_at := now
      updated_at := now }
  (t, { table := c.table ++ [t], freshId := c.freshId ++ "+" })

/-- `POST /tasks/` of the remote variant (`create_task`, lines 95-116):
`if not supabase: raise HTTPException(500, "Database connection not
available")` before anything touches the store; otherwise insert and return
`response.data[0]`. -/
def create_task_remote (supabase : Option SupabaseClient) (now : Nat)
    (task : TaskCreate) : Except HTTPError RTask × Option SupabaseClient :=
  match supabase with
  | none => (.error ⟨500, "Database connection not available"⟩, none)
  | some c =>
    let ins := supabaseInsert c now task
    (.ok ins.1, some ins.2)

/-- `GET /tasks/` of the remote variant (`list_tasks`, lines 119-139):
the same `supabase` null-check first; then `select("*")`, `eq("user_id",
user_id)` added only under Python truthiness `if user_id:`, and
`.range(skip, skip + limit - 1)` (inclusive on both ends, i.e. drop `skip`
rows then take at most `limit`). No ordering is requested. -/
def list_tasks_remote (supabase : Option SupabaseClient) (skip limit : Nat)
    (user_id : Option String) : Except HTTPError (List RTask) :=
  match supabase with
  | none => .error ⟨500, "Database connection not available"⟩
  | some c =>
    let q := match user_id with
      | some u => if u.isEmpty then c.table else c.table.filter (fun t => t.user_id == u)
      | none => c.table
    .ok ((q.drop skip).take limit)

/-! ### Reachable stores of the embedded variant -/

/-- `ReachFrom a b` holds when store `b` can be produced from store `a` by
some sequence of wire-level requests against the embedded variant. -/
inductive ReachFrom : Store → Store → Prop where
  | refl (st : Store) : ReachFrom st st
  | createStep {a b : Store} (now : Nat) (raw : RawTaskPayload) :
      ReachFrom a b → ReachFrom a (handle_create b now raw).2
  | updateStep {a b : Store} (now task_id : Nat) (raw : RawTaskPayload) :
      ReachFrom a b → ReachFrom a (handle_update b now task_id raw).2
  | completeStep {a b : Store} (now task_id : Nat) :
      ReachFrom a b → ReachFrom a (complete_task b now task_id).2
  | deleteStep {a b : Store} (task_id : Nat) :
      ReachFrom a b → ReachFrom a (delete_task b task_id).2

/-- A store reachable from the freshly initialized database. -/
def Reach (st : Store) : Prop := ReachFrom emptyStore st

/-! ### Helper lemmas -/

theorem updRow_id (task : TaskBase) (now : Nat) (u : Task) : (updRow task now u).id = u.id :=
  rfl

theorem completeRow_id (now : Nat) (u : Task) : (completeRow now u).id = u.id :=
  rfl

theorem find?_map_sel (g : Task → Task) (hg : ∀ t, (g t).id = t.id) (task_id : Nat)
    (rows : List Task) :
    (rows.map (fun t => if t.id == task_id then g t else t)).find? (fun t => t.id == task_id)
      = (rows.find? (fun t => t.id == task_id)).map g := by
  induction rows with
  | nil => rfl
  | cons a l ih =>
    simp only [List.map_cons, List.find?_cons]
    by_cases hc : a.id = task_id
    · have hb : (a.id == task_id) = true := by simp [hc]
      have hga : ((g a).id == task_id) = true := by rw [hg]; exact hb
      simp [hb, hga]
    · have hb : (a.id == task_id) = false := by simp [hc]
      simp only [hb, Bool.false_eq_true, if_false]
      exact ih

theorem find?_map_sel_other (g : Task → Task) (hg : ∀ t, (g t).id = t.id)
    (task_id oid : Nat) (hne : oid ≠ task_id) (rows : List Task) :
    (rows.map (fun t => if t.id == task_id then g t else t)).find? (fun t => t.id == oid)
      = rows.find? (fun t => t.id == oid) := by
  induction rows with
  | nil => rfl
  | cons a l ih =>
    simp only [List.map_cons, List.find?_cons]
    by_cases hc : a.id = task_id
    · have hb : (a.id == task_id) = true := by simp [hc]
      have hao : (a.id == oid) = false := by
        simp only [beq_eq_false_iff_ne, ne_eq, hc]
        omega
      have hgao : ((g a).id == oid) = false := by rw [hg]; exact hao
      simp only [hb, if_true, hgao, hao, Bool.false_eq_true, if_false]
      exact ih
    · have hb : (a.id == task_id) = false := by simp [hc]
      simp only [hb, Bool.false_eq_true, if_false]
      cases h2 : a.id == oid
      · simp only [Bool.false_eq_true, if_false]
        exact ih
      · rfl

theorem fetch_after_update (task_id : Nat) (task : TaskBase) (now : Nat) (rows : List Task) :
    (rows.map (applyUpdate task_id task now)).find? (fun t => t.id == task_id)
      = (rows.find? (fun t => t.id == task_id)).map (updRow task now) :=
  find?_map_sel (updRow task now) (fun _ => rfl) task_id rows

theorem fetch_after_update_other (task_id : Nat) (task : TaskBase) (now oid : Nat)
    (hne : oid ≠ task_id) (rows : List Task) :
    (rows.map (applyUpdate task_id task now)).find? (fun t => t.id == oid)
      = rows.find? (fun t => t.id == oid) :=
  find?_map_sel_other (updRow task now) (fun _ => rfl) task_id oid hne rows

theorem fetch_after_complete (task_id now : Nat) (rows : List Task) :
    (rows.map (applyComplete task_id now)).find? (fun t => t.id == task_id)
      = (rows.find? (fun t => t.id == task_id)).map (completeRow now) :=
  find?_map_sel (completeRow now) (fun _ => rfl) task_id rows

theorem fetch_after_complete_other (task_id now oid : Nat) (hne : oid ≠ task_id)
    (rows : List Task) :
    (rows.map (applyComplete task_id now)).find? (fun t => t.id == oid)
      = rows.find? (fun t => t.id == oid) :=
  find?_map_sel_other (completeRow now) (fun _ => rfl) task_id oid hne rows

theorem rowcount_ne_zero_of_found {rows : List Task} {task_id : Nat} {t : Task}
    (h : rows.find? (fun u => u.id == task_id) = some t) :
    ((rows.filter (fun u => u.id == task_id)).length == 0) = false := by
  have ha := List.find?_some h
  have hm := List.mem_of_find?_eq_some h
  have hmem : t ∈ rows.filter (fun u => u.id == task_id) :=
    List.mem_filter.mpr ⟨hm, ha⟩
  simp only [beq_eq_false_iff_ne, ne_eq, List.length_eq_zero]
  exact List.ne_nil_of_mem hmem

theorem find?_filter_out (task_id : Nat) (rows : List Task) :
    (rows.filter (fun t => !(t.id == task_id))).find? (fun t => t.id == task_id) = none := by
  rw [List.find?_eq_none]
  intro x hx
  have hxp := (List.mem_filter.mp hx).2
  simp at hxp ⊢
  exact hxp

/-! ### Characterizations of the handlers -/

theorem handle_create_snd (st : Store) (now : Nat) (raw : RawTaskPayload) :
    (handle_create st now raw).2 = st ∨
    ∃ tc, TaskCreate.parse raw = .ok tc ∧
      (handle_create st now raw).2 =
        { rows := st.rows ++ [(insertTask st now tc).1], nextId := st.nextId + 1 } := by
  unfold handle_create
  cases hp : TaskCreate.parse raw
  · left
    rfl
  · right
    exact ⟨_, rfl, rfl⟩

theorem handle_update_snd (st : Store) (now task_id : Nat) (raw : RawTaskPayload) :
    (handle_update st now task_id raw).2 = st ∨
    ∃ tb, TaskBase.parse raw = .ok tb ∧
      (handle_update st now task_id raw).2 =
        { st with rows := st.rows.map (applyUpdate task_id tb now) } := by
  unfold handle_update
  cases hp : TaskBase.parse raw
  · left
    rfl
  · right
    exact ⟨_, rfl, rfl⟩

theorem complete_task_snd (st : Store) (now task_id : Nat) :
    (complete_task st now task_id).2 =
      { st with rows := st.rows.map (applyComplete task_id now) } := rfl

theorem delete_task_snd (st : Store) (task_id : Nat) :
    (delete_task st task_id).2 =
      { st with rows := st.rows.filter (fun t => !(t.id == task_id)) } := rfl

theorem update_task_eq (st : Store) (now task_id : Nat) (tb : TaskBase) :
    update_task st now task_id tb =
      (wrapDBError (if ((st.rows.filter (fun u => u.id == task_id)).length == 0) = true
        then .error ⟨404, "Task not found"⟩
        else match (st.rows.map (applyUpdate task_id tb now)).find? (fun u => u.id == task_id) with
          | none => .error ⟨500, "fetched row missing"⟩
          | some td => .ok td),
       { st with rows := st.rows.map (applyUpdate task_id tb now) }) := rfl

theorem complete_task_eq (st : Store) (now task_id : Nat) :
    complete_task st now task_id =
      (wrapDBError (if ((st.rows.filter (fun u => u.id == task_id)).length == 0) = true
        then .error ⟨404, "Task not found"⟩
        else .ok "Task completed successfully"),
       { st with rows := st.rows.map (applyComplete task_id now) }) := rfl

theorem delete_task_eq (st : Store) (task_id : Nat) :
    delete_task st task_id =
      (wrapDBError (if ((st.rows.filter (fun u => u.id == task_id)).length == 0) = true
        then .error ⟨404, "Task not found"⟩
        else .ok "Task deleted successfully"),
       { st with rows := st.rows.filter (fun t => !(t.id == task_id)) }) := rfl

theorem create_task_eq (st : Store) (now : Nat) (task : TaskCreate) :
    create_task st now task =
      (wrapDBError (match ((insertTask st now task).2.rows).find? (fun t => t.id == st.nextId) with
        | none => .error ⟨400, "Error creating task"⟩
        | some td => .ok td),
       (insertTask st now task).2) := rfl

/-! ### Store invariants along reachable states -/

/-- Invariant of the embedded store: every row id is below the
`AUTOINCREMENT` counter, and every persisted priority lies in `[1,5]`. -/
def StoreInv (st : Store) : Prop :=
  ∀ t ∈ st.rows, t.id < st.nextId ∧ 1 ≤ t.priority ∧ t.priority < 6

theorem validate_priority_ok {v p : Int} (h : validate_priority v = .ok p) :
    1 ≤ p ∧ p < 6 := by
  unfold validate_priority at h
  by_cases hv : 1 ≤ v ∧ v < 6
  · rw [if_pos hv] at h
    cases h
    exact hv
  · rw [if_neg hv] at h
    cases h

theorem validate_priority_bad {v : Int} (h : ¬(1 ≤ v ∧ v < 6)) :
    validate_priority v = .error "Priority must be between 1 and 5" := by
  unfold validate_priority
  rw [if_neg h]

theorem parse_base_priority {raw : RawTaskPayload} {tb : TaskBase}
    (h : TaskBase.parse raw = .ok tb) : 1 ≤ tb.priority ∧ tb.priority < 6 := by
  unfold TaskBase.parse at h
  cases ht : raw.title with
  | none => rw [ht] at h; cases h
  | some s =>
    rw [ht] at h
    cases hv : validate_priority (raw.priority.getD 3) with
    | error m => rw [hv] at h; cases h
    | ok p =>
      rw [hv] at h
      cases h
      simpa using validate_priority_ok hv

theorem parse_create_priority {raw : RawTaskPayload} {tc : TaskCreate}
    (h : TaskCreate.parse raw = .ok tc) : 1 ≤ tc.priority ∧ tc.priority < 6 := by
  unfold TaskCreate.parse at h
  cases hb : TaskBase.parse raw with
  | error m => rw [hb] at h; cases h
  | ok base =>
    rw [hb] at h
    cases hu : raw.user_id with
    | none => rw [hu] at h; cases h
    | some uid =>
      rw [hu] at h
      cases h
      simpa using parse_base_priority hb

theorem applyUpdate_cases (task_id : Nat) (tb : TaskBase) (now : Nat) (u : Task) :
    applyUpdate task_id tb now u = updRow tb now u ∨ applyUpdate task_id tb now u = u := by
  unfold applyUpdate
  by_cases hc : (u.id == task_id) = true
  · rw [if_pos hc]
    exact Or.inl rfl
  · rw [if_neg hc]
    exact Or.inr rfl

theorem applyComplete_cases (task_id now : Nat) (u : Task) :
    applyComplete task_id now u = completeRow now u ∨ applyComplete task_id now u = u := by
  unfold applyComplete
  by_cases hc : (u.id == task_id) = true
  · rw [if_pos hc]
    exact Or.inl rfl
  · rw [if_neg hc]
    exact Or.inr rfl

theorem storeInv_create (st : Store) (now : Nat) (raw : RawTaskPayload)
    (h : StoreInv st) : StoreInv (handle_create st now raw).2 := by
  rcases handle_create_snd st now raw with heq | ⟨tc, hp, heq⟩
  · rw [heq]
    exact h
  · rw [heq]
    intro t ht
    rcases List.mem_append.mp ht with h1 | h2
    · rcases h t h1 with ⟨hid, hpr⟩
      exact ⟨Nat.lt_succ_of_lt hid, hpr⟩
    · rw [List.mem_singleton.mp h2]
      refine ⟨Nat.lt_succ_self _, ?_⟩
      exact parse_create_priority hp

theorem storeInv_update (st : Store) (now task_id : Nat) (raw : RawTaskPayload)
    (h : StoreInv st) : StoreInv (handle_update st now task_id raw).2 := by
  rcases handle_update_snd st now task_id raw with heq | ⟨tb, hp, heq⟩
  · rw [heq]
    exact h
  · rw [heq]
    intro t ht
    rcases List.mem_map.mp ht with ⟨u, hu, hut⟩
    rcases h u hu with ⟨hid, hpr⟩
    rcases applyUpdate_cases task_id tb now u with hcase | hcase
    · rw [← hut, hcase]
      exact ⟨hid, parse_base_priority hp⟩
    · rw [← hut, hcase]
      exact ⟨hid, hpr⟩

theorem storeInv_complete (st : Store) (now task_id : Nat)
    (h : StoreInv st) : StoreInv (complete_task st now task_id).2 := by
  rw [complete_task_snd]
  intro t ht
  rcases List.mem_map.mp ht with ⟨u, hu, hut⟩
  rcases h u hu with ⟨hid, hpr⟩
  rcases applyComplete_cases task_id now u with hcase | hcase
  · rw [← hut, hcase]
    exact ⟨hid, hpr⟩
  · rw [← hut, hcase]
    exact ⟨hid, hpr⟩

theorem storeInv_delete (st : Store) (task_id : Nat)
    (h : StoreInv st) : StoreInv (delete_task st task_id).2 := by
  rw [delete_task_snd]
  intro t ht
  exact h t (List.mem_of_mem_filter ht)

theorem reachFrom_storeInv {a b : Store} (h : ReachFrom a b) (ha : StoreInv a) :
    StoreInv b := by
  induction h with
  | refl => exact ha
  | createStep now raw h ih => exact storeInv_create _ now raw ih
  | updateStep now task_id raw h ih => exact storeInv_update _ now task_id raw ih
  | completeStep now task_id h ih => exact storeInv_complete _ now task_id ih
  | deleteStep task_id h ih => exact storeInv_delete _ task_id ih

theorem emptyStore_inv : StoreInv emptyStore := by
  intro t ht
  cases ht

theorem reach_storeInv {st : Store} (h : Reach st) : StoreInv st :=
  reachFrom_storeInv h emptyStore_inv

theorem nextId_le_create (st : Store) (now : Nat) (raw : RawTaskPayload) :
    st.nextId ≤ (handle_create st now raw).2.nextId := by
  rcases handle_create_snd st now raw with heq | ⟨tc, hp, heq⟩
  · rw [heq]
  · rw [heq]
    exact Nat.le_succ _

theorem nextId_le_update (st : Store) (now task_id : Nat) (raw : RawTaskPayload) :
    st.nextId ≤ (handle_update st now task_id raw).2.nextId := by
  rcases handle_update_snd st now task_id raw with heq | ⟨tb, hp, heq⟩
  · rw [heq]
  · rw [heq]

theorem reachFrom_nextId_le {a b : Store} (h : ReachFrom a b) : a.nextId ≤ b.nextId := by
  induction h with
  | refl => exact Nat.le_refl _
  | createStep now raw h ih => exact Nat.le_trans ih (nextId_le_create _ now raw)
  | updateStep now task_id raw h ih => exact Nat.le_trans ih (nextId_le_update _ now task_id raw)
  | completeStep now task_id h ih => exact Nat.le_trans ih (Nat.le_refl _)
  | deleteStep task_id h ih => exact Nat.le_trans ih (Nat.le_refl _)

/-! ### A deleted id stays absent -/

theorem absent_create (st : Store) (now : Nat) (raw : RawTaskPayload) {id : Nat}
    (hid : id < st.nextId) (hab : fetchTask st id = none) :
    fetchTask (handle_create st now raw).2 id = none := by
  rcases handle_create_snd st now raw with heq | ⟨tc, hp, heq⟩
  · rw [heq]
    exact hab
  · rw [heq]
    show (st.rows ++ [(insertTask st now tc).1]).find? (fun t => t.id == id) = none
    have hab2 : st.rows.find? (fun t => t.id == id) = none := hab
    rw [List.find?_append, hab2]
    rw [Option.none_or, List.find?_eq_none]
    intro x hx
    rw [List.mem_singleton.mp hx]
    show ¬((st.nextId == id) = true)
    simp only [beq_iff_eq]
    omega

theorem absent_update (st : Store) (now task_id : Nat) (raw : RawTaskPayload) {id : Nat}
    (hab : fetchTask st id = none) :
    fetchTask (handle_update st now task_id raw).2 id = none := by
  rcases handle_update_snd st now task_id raw with heq | ⟨tb, hp, heq⟩
  · rw [heq]
    exact hab
  · rw [heq]
    show (st.rows.map (applyUpdate task_id tb now)).find? (fun t => t.id == id) = none
    have hab2 : st.rows.find? (fun t => t.id == id) = none := hab
    by_cases hc : id = task_id
    · subst hc
      rw [fetch_after_update, hab2]
      rfl
    · rw [fetch_after_update_other task_id tb now id hc]
      exact hab2

theorem absent_complete (st : Store) (now task_id : Nat) {id : Nat}
    (hab : fetchTask st id = none) :
    fetchTask (complete_task st now task_id).2 id = none := by
  rw [complete_task_snd]
  show (st.rows.map (applyComplete task_id now)).find? (fun t => t.id == id) = none
  have hab2 : st.rows.find? (fun t => t.id == id) = none := hab
  by_cases hc : id = task_id
  · subst hc
    rw [fetch_after_complete, hab2]
    rfl
  · rw [fetch_after_complete_other task_id now id hc]
    exact hab2

theorem absent_delete (st : Store) (task_id : Nat) {id : Nat}
    (hab : fetchTask st id = none) :
    fetchTask (delete_task st task_id).2 id = none := by
  rw [delete_task_snd]
  show (st.rows.filter (fun t => !(t.id == task_id))).find? (fun t => t.id == id) = none
  have hab2 : st.rows.find? (fun t => t.id == id) = none := hab
  rw [List.find?_eq_none] at hab2 ⊢
  intro x hx
  exact hab2 x (List.mem_of_mem_filter hx)

/-- Once an id is absent from a store whose rows all have ids below the
`AUTOINCREMENT` counter, and the id itself is below the counter, it stays
absent in every store reachable from there: later inserts always use
fresh, larger ids. -/
theorem reachFrom_absent {a b : Store} {id : Nat} (h : ReachFrom a b)
    (hid : id < a.nextId) (hab : fetchTask a id = none) :
    fetchTask b id = none := by
  induction h with
  | refl => exact hab
  | createStep now raw h ih =>
    exact absent_create _ now raw (Nat.lt_of_lt_of_le hid (reachFrom_nextId_le h)) ih
  | updateStep now task_id raw h ih => exact absent_update _ now task_id raw ih
  | completeStep now task_id h ih => exact absent_complete _ now task_id ih
  | deleteStep task_id h ih => exact absent_delete _ task_id ih

/-! ### Found-row characterizations -/

theorem update_found (st : Store) (now task_id : Nat) (tb : TaskBase) {t : Task}
    (hfind : fetchTask st task_id = some t) :
    update_task st now task_id tb
      = (.ok (updRow tb now t),
         { st with rows := st.rows.map (applyUpdate task_id tb now) }) := by
  rw [update_task_eq]
  have hfind2 : st.rows.find? (fun u => u.id == task_id) = some t := hfind
  have hrc := rowcount_ne_zero_of_found hfind2
  rw [if_neg (by rw [hrc]; exact Bool.false_ne_true)]
  rw [fetch_after_update, hfind2]
  rfl

theorem complete_found (st : Store) (now task_id : Nat) {t : Task}
    (hfind : fetchTask st task_id = some t) :
    complete_task st now task_id
      = (.ok "Task completed successfully",
         { st with rows := st.rows.map (applyComplete task_id now) }) := by
  rw [complete_task_eq]
  have hfind2 : st.rows.find? (fun u => u.id == task_id) = some t := hfind
  have hrc := rowcount_ne_zero_of_found hfind2
  rw [if_neg (by rw [hrc]; exact Bool.false_ne_true)]
  rfl

theorem delete_found (st : Store) (task_id : Nat) {t : Task}
    (hfind : fetchTask st task_id = some t) :
    delete_task st task_id
      = (.ok "Task deleted successfully",
         { st with rows := st.rows.filter (fun u => !(u.id == task_id)) }) := by
  rw [delete_task_eq]
  have hfind2 : st.rows.find? (fun u => u.id == task_id) = some t := hfind
  have hrc := rowcount_ne_zero_of_found hfind2
  rw [if_neg (by rw [hrc]; exact Bool.false_ne_true)]
  rfl

theorem fetch_new (st : Store) (now : Nat) (tc : TaskCreate) (hinv : StoreInv st) :
    fetchTask (insertTask st now tc).2 st.nextId = some (insertTask st now tc).1 := by
  show (st.rows ++ [(insertTask st now tc).1]).find? (fun u => u.id == st.nextId) = _
  rw [List.find?_append]
  have h1 : st.rows.find? (fun u => u.id == st.nextId) = none := by
    rw [List.find?_eq_none]
    intro x hx
    have hlt := (hinv x hx).1
    simp only [beq_iff_eq]
    omega
  rw [h1, Option.none_or]
  have h2 : ((insertTask st now tc).1.id == st.nextId) = true := by
    show (st.nextId == st.nextId) = true
    simp
  simp [List.find?_cons, h2]

theorem create_ok (st : Store) (now : Nat) (tc : TaskCreate) (hinv : StoreInv st) :
    create_task st now tc = (.ok (insertTask st now tc).1, (insertTask st now tc).2) := by
  rw [create_task_eq]
  have hf : ((insertTask st now tc).2.rows).find? (fun t => t.id == st.nextId)
      = some (insertTask st now tc).1 := fetch_new st now tc hinv
  rw [hf]
  rfl

/-! ### Claim theorems -/

/-- Claim C1: the spec demands that every operation on a non-existent task
id yield the NotFound error (HTTP 404), not a 500. The handlers do raise
`HTTPException(404, "Task not found")`, but each route body sits inside
`except Exception`, which also catches `HTTPException`; the surfaced
response is therefore a 500 whose detail wraps the intended 404. The last
conjunct exhibits the intended 404 raised by the body before the catch-all
swallows it. -/
theorem c1_missing_id_surfaces_500 :
    get_task emptyStore 99 = .error ⟨500, "Database error: 404: Task not found"⟩
    ∧ (update_task emptyStore 7 99
        { title := "x", description := none, priority := 3 }).1
        = .error ⟨500, "Database error: 404: Task not found"⟩
    ∧ (complete_task emptyStore 7 99).1
        = .error ⟨500, "Database error: 404: Task not found"⟩
    ∧ (delete_task emptyStore 99).1
        = .error ⟨500, "Database error: 404: Task not found"⟩
    ∧ get_task_body emptyStore 99 = .error ⟨404, "Task not found"⟩ :=
  ⟨rfl, rfl, rfl, rfl, rfl⟩

/-- Claim C7: the embedded schema initialization is idempotent (running it
any number of times leaves an already-initialized store unchanged, rows
included), and the declared schema has `id` as an auto-incrementing primary
key, `priority` defaulted to 3, `is_completed` defaulted to false and both
timestamps defaulted to the insertion moment; the insert path indeed fills
the omitted columns with those defaults. -/
theorem c7_init_db_idempotent_and_defaults :
    (∀ d, init_db (init_db d) = init_db d)
    ∧ (∀ t, init_db (some t) = some t)
    ∧ init_db none = some (tasksSchema, emptyStore)
    ∧ tasksSchema.idIsAutoincrementPrimaryKey = true
    ∧ tasksSchema.priorityDefault = .intVal 3
    ∧ tasksSchema.isCompletedDefault = .boolVal false
    ∧ tasksSchema.createdAtDefault = .currentTimestamp
    ∧ tasksSchema.updatedAtDefault = .currentTimestamp
    ∧ (∀ st now tc, (insertTask st now tc).1.is_completed = false
        ∧ (insertTask st now tc).1.created_at = now
        ∧ (insertTask st now tc).1.updated_at = now
        ∧ (insertTask st now tc).1.id = st.nextId) := by
  refine ⟨?_, fun t => rfl, rfl, rfl, rfl, rfl, rfl, rfl, ?_⟩
  · intro d
    cases d <;> rfl
  · intro st now tc
    exact ⟨rfl, rfl, rfl, rfl⟩

theorem rowMatches_empty_user (completed : Option Bool) (t : Task) :
    rowMatches (some "") completed t = rowMatches none completed t := rfl

/-- Claim C9: in both variants, supplying `user_id = ""` on a list request
is the same as supplying no `user_id` filter at all, because the filter is
added only under Python truthiness (`if user_id:`), which is false for the
empty string. -/
theorem c9_empty_user_id_is_no_filter :
    (∀ st skip limit completed,
      list_tasks st skip limit (some "") completed
        = list_tasks st skip limit none completed)
    ∧ (∀ supabase skip limit,
      list_tasks_remote supabase skip limit (some "")
        = list_tasks_remote supabase skip limit none) := by
  constructor
  · intro st skip limit completed
    unfold list_tasks
    rw [List.filter_congr (fun a _ => rowMatches_empty_user completed a)]
  · intro supabase skip limit
    cases supabase <;> rfl

/-- Claim C8: in the remote variant, a missing store endpoint URL or API
key makes the module bootstrap raise (fatal at startup); a failed
connection is swallowed (`supabase = None`, the process lives on); and with
no client every data operation (create, list) fails fast with the
store-unavailable 500 before any store access — the result does not depend
on any store content. -/
theorem c8_remote_bootstrap_and_fail_fast (url key err : String)
    (hurl : url ≠ "") (hkey : key ≠ "") :
    (∀ k c, module_bootstrap none k c
        = .error "Supabase URL and Supabase API key must be set")
    ∧ (∀ u c, module_bootstrap u none c
        = .error "Supabase URL and Supabase API key must be set")
    ∧ module_bootstrap (some url) (some key) (fun _ _ => .error err) = .ok none
    ∧ (∀ connect c, connect url key = .ok c →
        module_bootstrap (some url) (some key) connect = .ok (some c))
    ∧ (∀ now task, create_task_remote none now task
        = (.error ⟨500, "Database connection not available"⟩, none))
    ∧ (∀ skip limit uid, list_tasks_remote none skip limit uid
        = .error ⟨500, "Database connection not available"⟩) := by
  refine ⟨fun k c => rfl, ?_, ?_, ?_, fun now task => rfl, fun skip limit uid => rfl⟩
  · intro u c
    unfold module_bootstrap
    rw [if_pos]
    simp [envTruthy]
  · unfold module_bootstrap
    rw [if_neg]
    simp [envTruthy, String.isEmpty_iff, hurl, hkey]
  · intro connect c hc
    unfold module_bootstrap
    rw [if_neg]
    · simp only [Option.getD_some]
      rw [hc]
    · simp [envTruthy, String.isEmpty_iff, hurl, hkey]

/-- Witness for C8 at concrete secrets and a failing connection. -/
theorem c8_remote_bootstrap_and_fail_fast_witness :
    module_bootstrap (some "https://x.supabase.co") (some "service-key")
      (fun _ _ => .error "connection refused") = .ok none :=
  (c8_remote_bootstrap_and_fail_fast "https://x.supabase.co" "service-key"
    "connection refused" (by decide) (by decide)).2.2.1

theorem parse_bad_priority {raw : RawTaskPayload} {s : String} {p : Int}
    (htitle : raw.title = some s) (hp : raw.priority = some p)
    (hbad : p < 1 ∨ 5 < p) :
    TaskBase.parse raw = .error "Priority must be between 1 and 5" := by
  unfold TaskBase.parse
  rw [htitle, hp]
  have hv : validate_priority ((some p).getD 3) = .error "Priority must be between 1 and 5" := by
    rw [Option.getD_some]
    exact validate_priority_bad (by omega)
  rw [hv]

/-- Claim C2: a create or update request whose priority lies outside `[1,5]`
fails at the pydantic boundary with the message
"Priority must be between 1 and 5", the store is left untouched, and (as a
consequence of validation guarding every write) every task in any reachable
store has priority in `{1,2,3,4,5}`. -/
theorem c2_priority_validation (st : Store) (now task_id : Nat) (raw : RawTaskPayload)
    (s : String) (p : Int)
    (htitle : raw.title = some s) (hp : raw.priority = some p)
    (hbad : p < 1 ∨ 5 < p) :
    handle_create st now raw = (.error ⟨422, "Priority must be between 1 and 5"⟩, st)
    ∧ handle_update st now task_id raw
        = (.error ⟨422, "Priority must be between 1 and 5"⟩, st)
    ∧ (∀ st2, Reach st2 → ∀ t ∈ st2.rows, 1 ≤ t.priority ∧ t.priority ≤ 5) := by
  have hbase := parse_bad_priority htitle hp hbad
  have hc : TaskCreate.parse raw = .error "Priority must be between 1 and 5" := by
    unfold TaskCreate.parse
    rw [hbase]
  refine ⟨?_, ?_, ?_⟩
  · unfold handle_create
    rw [hc]
  · unfold handle_update
    rw [hbase]
  · intro st2 h2 t ht
    rcases reach_storeInv h2 t ht with ⟨hid, h1, h6⟩
    exact ⟨h1, by omega⟩

/-- Witness for C2 at a concrete out-of-range priority (7). -/
theorem c2_priority_validation_witness :
    handle_create emptyStore 0
      { title := some "Pay bills", description := none, priority := some 7,
        user_id := some "u1", is_completed := none }
      = (.error ⟨422, "Priority must be between 1 and 5"⟩, emptyStore) :=
  (c2_priority_validation emptyStore 0 1 _ "Pay bills" 7 rfl rfl (Or.inr (by omega))).1

/-- Claim C3: a successful create returns a task with `is_completed =
false`, `created_at = updated_at` equal to the insertion moment, and with
`id` (the `AUTOINCREMENT` counter) and both timestamps assigned by the
storage backend; an `is_completed` key in the raw body is ignored. The
remote variant behaves the same through the spec-modelled hosted insert. -/
theorem c3_create_initial_state (st : Store) (now : Nat) (raw : RawTaskPayload) (t : Task)
    (hreach : Reach st)
    (hok : (handle_create st now raw).1 = .ok t) :
    t.is_completed = false
    ∧ t.created_at = now
    ∧ t.updated_at = now
    ∧ t.created_at = t.updated_at
    ∧ t.id = st.nextId
    ∧ (handle_create st now raw).2.nextId = st.nextId + 1
    ∧ (∀ b, handle_create st now { raw with is_completed := b }
        = handle_create st now raw)
    ∧ (∀ c now2 tc2,
        (create_task_remote (some c) now2 tc2).1 = .ok (supabaseInsert c now2 tc2).1
        ∧ (supabaseInsert c now2 tc2).1.is_completed = false
        ∧ (supabaseInsert c now2 tc2).1.created_at = now2
        ∧ (supabaseInsert c now2 tc2).1.updated_at = now2
        ∧ (supabaseInsert c now2 tc2).1.id = c.freshId) := by
  cases hparse : TaskCreate.parse raw with
  | error m =>
    exfalso
    unfold handle_create at hok
    rw [hparse] at hok
    cases hok
  | ok tc =>
    have hinv := reach_storeInv hreach
    have hco := create_ok st now tc hinv
    unfold handle_create at hok
    rw [hparse] at hok
    have hok2 : (create_task st now tc).1 = .ok t := hok
    rw [hco] at hok2
    injection hok2 with h
    subst h
    refine ⟨rfl, rfl, rfl, rfl, rfl, ?_, fun b => rfl, fun c now2 tc2 => ⟨rfl, rfl, rfl, rfl, rfl⟩⟩
    unfold handle_create
    rw [hparse]
    show (create_task st now tc).2.nextId = st.nextId + 1
    rw [hco]
    rfl

/-- Witness for C3 at a concrete create request. -/
theorem c3_create_initial_state_witness :
    (⟨1, "Buy milk", none, 3, "u1", false, 5, 5⟩ : Task).is_completed = false :=
  (c3_create_initial_state emptyStore 5
    { title := some "Buy milk", description := none, priority := some 3,
      user_id := some "u1", is_completed := none }
    (⟨1, "Buy milk", none, 3, "u1", false, 5, 5⟩ : Task)
    (ReachFrom.refl emptyStore) rfl).1

/-- Claim C4: an update of an existing id overwrites exactly title,
description and priority, refreshes `updated_at` to the (strictly later)
current moment, leaves `created_at`, `user_id` and `is_completed` (and all
other rows) unchanged, and `user_id` / `is_completed` keys in the raw body
are stripped by the `TaskBase` model without affecting the result. -/
theorem c4_update_overwrites_exactly (st : Store) (now task_id : Nat)
    (raw : RawTaskPayload) (tb : TaskBase) (t : Task)
    (hparse : TaskBase.parse raw = .ok tb)
    (hfind : fetchTask st task_id = some t)
    (hnow : t.updated_at < now) :
    (handle_update st now task_id raw).1 = .ok (updRow tb now t)
    ∧ (updRow tb now t).title = tb.title
    ∧ (updRow tb now t).description = tb.description
    ∧ (updRow tb now t).priority = tb.priority
    ∧ (updRow tb now t).updated_at = now
    ∧ t.updated_at < (updRow tb now t).updated_at
    ∧ (updRow tb now t).created_at = t.created_at
    ∧ (updRow tb now t).user_id = t.user_id
    ∧ (updRow tb now t).is_completed = t.is_completed
    ∧ fetchTask (handle_update st now task_id raw).2 task_id = some (updRow tb now t)
    ∧ (∀ oid, oid ≠ task_id →
        fetchTask (handle_update st now task_id raw).2 oid = fetchTask st oid)
    ∧ (∀ u b, handle_update st now task_id { raw with user_id := u, is_completed := b }
        = handle_update st now task_id raw) := by
  have hfind2 : st.rows.find? (fun u => u.id == task_id) = some t := hfind
  have hu := update_found st now task_id tb hfind
  have h2 : handle_update st now task_id raw
      = (.ok (updRow tb now t),
         { st with rows := st.rows.map (applyUpdate task_id tb now) }) := by
    unfold handle_update
    rw [hparse]
    exact hu
  refine ⟨?_, rfl, rfl, rfl, rfl, hnow, rfl, rfl, rfl, ?_, ?_, fun u b => rfl⟩
  · rw [h2]
  · rw [h2]
    show (st.rows.map (applyUpdate task_id tb now)).find? (fun u => u.id == task_id)
        = some (updRow tb now t)
    rw [fetch_after_update, hfind2]
    rfl
  · intro oid hoid
    rw [h2]
    show (st.rows.map (applyUpdate task_id tb now)).find? (fun u => u.id == oid)
        = fetchTask st oid
    rw [fetch_after_update_other task_id tb now oid hoid]
    rfl

/-- Witness for C4 at a concrete store and update request. -/
theorem c4_update_overwrites_exactly_witness :
    (handle_update { rows := [⟨1, "Buy milk", none, 3, "u1", false, 5, 5⟩], nextId := 2 }
      9 1 { title := some "Buy oat milk", description := some "2L", priority := some 2,
            user_id := some "intruder", is_completed := some true }).1
      = .ok ⟨1, "Buy oat milk", some "2L", 2, "u1", false, 5, 9⟩ :=
  (c4_update_overwrites_exactly
    { rows := [⟨1, "Buy milk", none, 3, "u1", false, 5, 5⟩], nextId := 2 }
    9 1
    { title := some "Buy oat milk", description := some "2L", priority := some 2,
      user_id := some "intruder", is_completed := some true }
    { title := "Buy oat milk", description := some "2L", priority := 2 }
    ⟨1, "Buy milk", none, 3, "u1", false, 5, 5⟩
    rfl rfl (by decide)).1

/-- Claim C10: marking an already-completed existing task complete succeeds
again, keeps `is_completed = true`, changes only `updated_at`, and leaves
every other row unchanged. -/
theorem c10_complete_idempotent (st : Store) (now task_id : Nat) (t : Task)
    (hfind : fetchTask st task_id = some t)
    (hdone : t.is_completed = true) :
    (complete_task st now task_id).1 = .ok "Task completed successfully"
    ∧ fetchTask (complete_task st now task_id).2 task_id = some (completeRow now t)
    ∧ (completeRow now t).is_completed = true
    ∧ completeRow now t = { t with updated_at := now }
    ∧ (∀ oid, oid ≠ task_id →
        fetchTask (complete_task st now task_id).2 oid = fetchTask st oid) := by
  have hfind2 : st.rows.find? (fun u => u.id == task_id) = some t := hfind
  have hc := complete_found st now task_id hfind
  refine ⟨?_, ?_, rfl, ?_, ?_⟩
  · rw [hc]
  · rw [hc]
    show (st.rows.map (applyComplete task_id now)).find? (fun u => u.id == task_id)
        = some (completeRow now t)
    rw [fetch_after_complete, hfind2]
    rfl
  · obtain ⟨i1, ti1, d1, p1, u1, ic1, ca1, ua1⟩ := t
    subst hdone
    rfl
  · intro oid hoid
    rw [hc]
    show (st.rows.map (applyComplete task_id now)).find? (fun u => u.id == oid)
        = fetchTask st oid
    rw [fetch_after_complete_other task_id now oid hoid]
    rfl

/-- Witness for C10 on an already-completed task. -/
theorem c10_complete_idempotent_witness :
    (complete_task { rows := [⟨1, "Buy milk", none, 3, "u1", true, 5, 6⟩], nextId := 2 }
      9 1).1 = .ok "Task completed successfully" :=
  (c10_complete_idempotent
    { rows := [⟨1, "Buy milk", none, 3, "u1", true, 5, 6⟩], nextId := 2 }
    9 1 ⟨1, "Buy milk", none, 3, "u1", true, 5, 6⟩ rfl rfl).1

/-- Claim C6: a delete of an existing id succeeds, and in the resulting
store — and in every store reachable from it by any further sequence of
requests — the id resolves to nothing: the get body signals NotFound (the
route then wraps it, see C1), get never succeeds on it, and no later create
ever hands the id out again (the `AUTOINCREMENT` counter only grows). -/
theorem c6_delete_forever (st st2 : Store) (task_id : Nat) (t : Task)
    (hreach : Reach st)
    (hfind : fetchTask st task_id = some t)
    (hfut : ReachFrom (delete_task st task_id).2 st2) :
    (delete_task st task_id).1 = .ok "Task deleted successfully"
    ∧ fetchTask st2 task_id = none
    ∧ get_task_body st2 task_id = .error ⟨404, "Task not found"⟩
    ∧ (∀ u, get_task st2 task_id ≠ .ok u) := by
  have hfind2 : st.rows.find? (fun u => u.id == task_id) = some t := hfind
  have hdel := delete_found st task_id hfind
  have hinv := reach_storeInv hreach
  have hmem := List.mem_of_find?_eq_some hfind2
  have hteq : t.id = task_id := by
    have := List.find?_some hfind2
    simpa using this
  have hlt : task_id < st.nextId := by
    have := (hinv t hmem).1
    omega
  have habs : fetchTask (delete_task st task_id).2 task_id = none := by
    rw [delete_task_snd]
    show (st.rows.filter (fun u => !(u.id == task_id))).find? (fun u => u.id == task_id)
        = none
    exact find?_filter_out task_id st.rows
  have hlt2 : task_id < (delete_task st task_id).2.nextId := hlt
  have hst2 : fetchTask st2 task_id = none := reachFrom_absent hfut hlt2 habs
  have hbody : get_task_body st2 task_id = .error ⟨404, "Task not found"⟩ := by
    unfold get_task_body
    rw [hst2]
  refine ⟨?_, hst2, hbody, ?_⟩
  · rw [hdel]
  · intro u
    unfold get_task
    rw [hbody]
    intro hcontra
    simp [wrapDBError] at hcontra

/-- Witness for C6: create one task, delete it, the id is gone. -/
theorem c6_delete_forever_witness :
    fetchTask { rows := [], nextId := 2 } 1 = none :=
  (c6_delete_forever { rows := [⟨1, "Buy milk", none, 3, "u1", false, 5, 5⟩], nextId := 2 }
    { rows := [], nextId := 2 } 1 ⟨1, "Buy milk", none, 3, "u1", false, 5, 5⟩
    (ReachFrom.createStep 5
      { title := some "Buy milk", description := none, priority := some 3,
        user_id := some "u1", is_completed := none }
      (ReachFrom.refl emptyStore))
    rfl (ReachFrom.refl _)).2.1

theorem byCreatedDesc_trans : ∀ a b c : Task,
    byCreatedDesc a b → byCreatedDesc b c → byCreatedDesc a c := by
  intro a b c hab hbc
  simp only [byCreatedDesc, decide_eq_true_eq] at hab hbc ⊢
  omega

theorem byCreatedDesc_total : ∀ a b : Task,
    byCreatedDesc a b || byCreatedDesc b a := by
  intro a b
  simp only [byCreatedDesc, Bool.or_eq_true, decide_eq_true_eq]
  omega

/-- Claim C5: a list request returns rows that all match the conjunction of
the supplied filters; the embedded result page is ordered by `created_at`
descending; pagination drops the first `skip` rows of the ordered result
and returns at most `limit`; every matching row is returned when the page
is large enough; and with no filters the (sufficiently large) page is a
permutation of the whole table, owners not restricted. The remote variant
behaves alike, without the ordering guarantee. -/
theorem c5_list_semantics (st : Store) (skip limit : Nat)
    (uid : Option String) (completed : Option Bool) :
    (∀ t ∈ list_tasks st skip limit uid completed,
        t ∈ st.rows ∧ rowMatches uid completed t = true)
    ∧ (list_tasks st skip limit uid completed).Pairwise
        (fun a b => b.created_at ≤ a.created_at)
    ∧ (list_tasks st skip limit uid completed).length ≤ limit
    ∧ list_tasks st skip limit uid completed
        = (list_tasks st 0 (skip + limit) uid completed).drop skip
    ∧ (∀ t ∈ st.rows, rowMatches uid completed t = true →
        (st.rows.filter (rowMatches uid completed)).length ≤ limit →
        t ∈ list_tasks st 0 limit uid completed)
    ∧ (uid = none → completed = none → st.rows.length ≤ limit →
        (list_tasks st 0 limit uid completed).Perm st.rows)
    ∧ (∀ c res, list_tasks_remote (some c) skip limit uid = .ok res →
        res.length ≤ limit
        ∧ (∀ t ∈ res, t ∈ c.table)
        ∧ (∀ u, uid = some u → ¬u.isEmpty → ∀ t ∈ res, t.user_id = u)
        ∧ (uid = none → skip = 0 → c.table.length ≤ limit → res = c.table)) := by
  have hsorted := List.sorted_mergeSort byCreatedDesc_trans byCreatedDesc_total
    (st.rows.filter (rowMatches uid completed))
  refine ⟨?_, ?_, ?_, ?_, ?_, ?_, ?_⟩
  · intro t ht
    unfold list_tasks at ht
    have h1 : t ∈ (st.rows.filter (rowMatches uid completed)).mergeSort byCreatedDesc :=
      List.drop_subset _ _ (List.take_subset _ _ ht)
    rw [List.mem_mergeSort] at h1
    exact ⟨List.mem_of_mem_filter h1, List.of_mem_filter h1⟩
  · have hsub : List.Sublist (list_tasks st skip limit uid completed)
        ((st.rows.filter (rowMatches uid completed)).mergeSort byCreatedDesc) := by
      unfold list_tasks
      exact (List.take_sublist _ _).trans (List.drop_sublist _ _)
    exact (hsorted.sublist hsub).imp (fun hab => of_decide_eq_true hab)
  · unfold list_tasks
    exact List.length_take_le _ _
  · unfold list_tasks
    rw [List.drop_zero, List.take_drop]
  · intro t hmem hmatch hlen
    unfold list_tasks
    rw [List.drop_zero, List.take_of_length_le (by simpa using hlen)]
    rw [List.mem_mergeSort]
    exact List.mem_filter.mpr ⟨hmem, hmatch⟩
  · intro h1 h2 h3
    subst h1
    subst h2
    unfold list_tasks
    rw [List.drop_zero]
    have hfil : st.rows.filter (rowMatches none none) = st.rows :=
      List.filter_eq_self.mpr (fun a _ => rfl)
    rw [hfil, List.take_of_length_le (by simpa using h3)]
    exact List.mergeSort_perm st.rows byCreatedDesc
  · intro c res hres
    unfold list_tasks_remote at hres
    injection hres with hres
    subst hres
    refine ⟨List.length_take_le _ _, ?_, ?_, ?_⟩
    · intro t ht
      have h1 := List.drop_subset _ _ (List.take_subset _ _ ht)
      cases uid with
      | none => exact h1
      | some u =>
        have h2 : t ∈ (if u.isEmpty = true then c.table
            else c.table.filter (fun x => x.user_id == u)) := h1
        by_cases hu : u.isEmpty
        · rw [if_pos hu] at h2
          exact h2
        · rw [if_neg hu] at h2
          exact List.mem_of_mem_filter h2
    · intro u hu hne t ht
      subst hu
      have ht2 : t ∈ ((if u.isEmpty = true then c.table
          else c.table.filter (fun x => x.user_id == u)).drop skip).take limit := ht
      rw [if_neg hne] at ht2
      have h1 := List.drop_subset _ _ (List.take_subset _ _ ht2)
      have hp := List.of_mem_filter h1
      simpa using hp
    · intro h1 h2 h3
      subst h1
      subst h2
      show List.take limit (List.drop 0 c.table) = c.table
      rw [List.drop_zero, List.take_of_length_le h3]

/-- Witness for C5 (remote conjunct has hypotheses): a two-owner store with
no filters lists both owners' tasks. -/
theorem c5_list_semantics_witness :
    (list_tasks { rows := [⟨1, "a", none, 3, "u1", false, 5, 5⟩,
                           ⟨2, "b", none, 2, "u2", true, 6, 6⟩], nextId := 3 }
      0 100 none none).Perm
      [⟨1, "a", none, 3, "u1", false, 5, 5⟩, ⟨2, "b", none, 2, "u2", true, 6, 6⟩] :=
  ((c5_list_semantics { rows := [⟨1, "a", none, 3, "u1", false, 5, 5⟩,
                                 ⟨2, "b", none, 2, "u2", true, 6, 6⟩], nextId := 3 }
    0 100 none none).2.2.2.2.2.1) rfl rfl (by decide)

end TaskMaster
